import Mathlib

/- Shallow embedding of the build-time configuration resolver of
   rusty_ffmpeg (the file build.rs).  Rust Option values become Option,
   panics and unwrap failures become Except.error carrying the panic
   message, and the external collaborators (pkg-config probing, vcpkg,
   bindgen parsing, filesystem copy) are modelled as explicit oracle
   parameters.  Process-wide environment mutation is modelled by explicit
   state passing where a claim needs it. -/

/-- The seven FFmpeg sub-library names (static LIBS in build.rs). -/
def LIBS : List String :=
  ["avcodec", "avdevice", "avfilter", "avformat", "avutil", "swresample", "swscale"]

/-- The 63-entry whitelist of headers (static HEADERS in build.rs). -/
def HEADERS : List String :=
  ["libavcodec/avcodec.h", "libavcodec/avfft.h", "libavcodec/dv_profile.h",
   "libavcodec/vorbis_parser.h", "libavdevice/avdevice.h", "libavfilter/avfilter.h",
   "libavfilter/buffersink.h", "libavfilter/buffersrc.h", "libavformat/avformat.h",
   "libavformat/avio.h", "libavutil/adler32.h", "libavutil/aes.h",
   "libavutil/audio_fifo.h", "libavutil/avstring.h", "libavutil/avutil.h",
   "libavutil/base64.h", "libavutil/blowfish.h", "libavutil/bprint.h",
   "libavutil/buffer.h", "libavutil/camellia.h", "libavutil/cast5.h",
   "libavutil/channel_layout.h", "libavutil/cpu.h", "libavutil/crc.h",
   "libavutil/dict.h", "libavutil/display.h", "libavutil/downmix_info.h",
   "libavutil/error.h", "libavutil/eval.h", "libavutil/fifo.h",
   "libavutil/file.h", "libavutil/frame.h", "libavutil/hash.h",
   "libavutil/hmac.h", "libavutil/hwcontext_drm.h", "libavutil/imgutils.h",
   "libavutil/lfg.h", "libavutil/log.h", "libavutil/macros.h",
   "libavutil/mathematics.h", "libavutil/md5.h", "libavutil/mem.h",
   "libavutil/motion_vector.h", "libavutil/murmur3.h", "libavutil/opt.h",
   "libavutil/parseutils.h", "libavutil/pixdesc.h", "libavutil/pixfmt.h",
   "libavutil/random_seed.h", "libavutil/rational.h", "libavutil/replaygain.h",
   "libavutil/ripemd.h", "libavutil/samplefmt.h", "libavutil/sha.h",
   "libavutil/sha512.h", "libavutil/stereo3d.h", "libavutil/threadmessage.h",
   "libavutil/time.h", "libavutil/timecode.h", "libavutil/twofish.h",
   "libavutil/xtea.h", "libswresample/swresample.h", "libswscale/swscale.h"]

/-- bindgen callback result for a macro name (callbacks::MacroParsingBehavior). -/
inductive MacroParsingBehavior where
  | Ignore
  | Default
deriving DecidableEq

/-- The five floating-point classification names put into the
FilterCargoCallbacks suppression set in generate_bindings. -/
def fpMacros : List String :=
  ["FP_NAN", "FP_INFINITE", "FP_ZERO", "FP_SUBNORMAL", "FP_NORMAL"]

/-- FilterCargoCallbacks, the callback that decides whether a macro is
parsed: Ignore when the name is in the emitted set, Default otherwise. -/
def filterCallbackDecision (emitted : List String) (name : String) : MacroParsingBehavior :=
  if name ∈ emitted then MacroParsingBehavior.Ignore else MacroParsingBehavior.Default

/-- The filter as generate_bindings installs it, with the set built from
the five-element vector. -/
def bindgenMacroFilter (name : String) : MacroParsingBehavior :=
  filterCallbackDecision fpMacros name

/-- Header resolution in generate_bindings: a header short path is mapped
to the include-dir-prefixed path by plain string formatting, or kept
verbatim when no include dir is given. -/
def resolveHeader (ffmpeg_include_dir : Option String) (header : String) : String :=
  match ffmpeg_include_dir with
  | some dir => dir ++ "/" ++ header
  | none => header

/-- The full resolved header path list handed to the parsing engine. -/
def resolvedHeaderPaths (ffmpeg_include_dir : Option String) : List String :=
  HEADERS.map (resolveHeader ffmpeg_include_dir)

/-- True when the character list never holds two consecutive slashes. -/
def noDoubleSlash : List Char → Bool
  | c1 :: c2 :: rest => !(c1 == '/' && c2 == '/') && noDoubleSlash (c2 :: rest)
  | _ => true

/-- True when the last character is a slash. -/
def endsWithSlash : List Char → Bool
  | [] => false
  | [c] => c == '/'
  | _ :: c :: rest => endsWithSlash (c :: rest)

/-- True when the first character is a slash. -/
def headIsSlash : List Char → Bool
  | [] => false
  | c :: _ => c == '/'

/-- The EnvVars snapshot read once at startup (EnvVars::init). -/
structure EnvVars where
  docs_rs : Option String
  out_dir : Option String
  ffmpeg_include_dir : Option String
  ffmpeg_dll_path : Option String
  ffmpeg_pkg_config_path : Option String
  ffmpeg_libs_dir : Option String
  ffmpeg_binding_path : Option String
deriving DecidableEq

/-- The three strategies the top level chooses among. -/
inductive LinkingStrategy where
  | DocsShortcut
  | Dynamic
  | Static
deriving DecidableEq

/-- Strategy selection of fn main: docs_rs first, then ffmpeg_dll_path,
then the static fallback. -/
def selectStrategy (env : EnvVars) : LinkingStrategy :=
  if env.docs_rs.isSome then LinkingStrategy.DocsShortcut
  else if env.ffmpeg_dll_path.isSome then LinkingStrategy.Dynamic
  else LinkingStrategy.Static

/-- The characters of the prefix removed by trim_start_matches. -/
def libChars : List Char := ['l', 'i', 'b']

/-- Fueled worker for trim_start_matches: repeatedly removes a leading
"lib".  Fuel equal to the length is always enough, since every removal
consumes three characters. -/
def trimStartLibAux : Nat → List Char → List Char
  | 0, l => l
  | Nat.succ fuel, l =>
      if libChars.isPrefixOf l then trimStartLibAux fuel (l.drop 3) else l

/-- Rust trim_start_matches with the pattern "lib". -/
def trimStartLib (l : List Char) : List Char :=
  trimStartLibAux l.length l

/-- Scans a character list for the first dot and yields what follows it. -/
def afterFirstDot : List Char → Option (List Char)
  | [] => none
  | c :: rest => if c == '.' then some rest else afterFirstDot rest

/-- Splits a character list at every slash, keeping empty segments, the
way string splitting on the separator does. -/
def splitOnSlash : List Char → List (List Char)
  | [] => [[]]
  | c :: rest =>
      let r := splitOnSlash rest
      if c == '/' then [] :: r
      else
        match r with
        | [] => [[c]]
        | seg :: segs => (c :: seg) :: segs

/-- Path::file_name on a slash-separated path string: the last component,
with empty and current-dir components dropped, and none when the path is
empty or terminates in a parent-dir component. -/
def pathFileName (path : String) : Option String :=
  let comps := (splitOnSlash path.data).filter (fun c => !(c.isEmpty || c == ['.']))
  match comps.getLast? with
  | none => none
  | some c => if c == ['.', '.'] then none else some (String.mk c)

/-- The stem of a file name: everything before the last dot, or the whole
name when there is no dot or the last dot is the leading character. -/
def fileStemOfName (n : String) : String :=
  match afterFirstDot n.data.reverse with
  | none => n
  | some beforeRev => if beforeRev.isEmpty then n else String.mk beforeRev.reverse

/-- The dll name derivation of dynamic_linking: file_stem of the path,
then trim_start_matches "lib" on every target other than windows.  The
none result stands for the unwrap panic on a stem-less path. -/
def ffmpeg_dll_name (targetWindows : Bool) (path : String) : Option String :=
  match pathFileName path with
  | none => none
  | some fname =>
      let stem := fileStemOfName fname
      if targetWindows then some stem else some (String.mk (trimStartLib stem.data))

/-- The dll directory derivation of dynamic_linking (PathBuf::pop then
to_str) for plain slash-separated paths: all components except the last,
rejoined, keeping a leading slash of an absolute path. -/
def ffmpeg_dll_dir (path : String) : String :=
  let comps := (splitOnSlash path.data).filter (fun c => !(c.isEmpty))
  (if headIsSlash path.data then "/" else "") ++
    String.intercalate "/" (comps.dropLast.map String.mk)

/-- How the binding file gets produced, or the fatal message when no
source is available. -/
inductive BindingSource where
  | prebuilt (path : String)
  | generated (includeDir : String)
  | noSource (msg : String)
deriving DecidableEq

/-- Binding-source resolution of dynamic_linking: prebuilt binding path,
else explicit include dir, else panic. -/
def dynamicBindingSource (env : EnvVars) : BindingSource :=
  match env.ffmpeg_binding_path with
  | some bp => BindingSource.prebuilt bp
  | none =>
      match env.ffmpeg_include_dir with
      | some inc => BindingSource.generated inc
      | none => BindingSource.noSource "No binding generation method is set!"

/-- Binding-source resolution of the pkg-config branch of static_linking:
prebuilt binding path, else explicit include dir, else element 0 of the
probed include paths (an index panic when that list is empty). -/
def staticPkgBindingSource (env : EnvVars) (include_paths : List String) : BindingSource :=
  match env.ffmpeg_binding_path with
  | some bp => BindingSource.prebuilt bp
  | none =>
      match env.ffmpeg_include_dir with
      | some inc => BindingSource.generated inc
      | none =>
          match include_paths with
          | inc :: _ => BindingSource.generated inc
          | [] => BindingSource.noSource "index out of bounds: the len is 0"

/-- Binding-source resolution of the libs-dir branch of static_linking:
prebuilt binding path, else explicit include dir, else panic. -/
def staticLibsDirBindingSource (env : EnvVars) : BindingSource :=
  match env.ffmpeg_binding_path with
  | some bp => BindingSource.prebuilt bp
  | none =>
      match env.ffmpeg_include_dir with
      | some inc => BindingSource.generated inc
      | none => BindingSource.noSource "No binding generation method is set!"

/-- Binding-source resolution of the windows branch of static_linking:
prebuilt binding path, else element 0 of the vcpkg include paths; the
explicit include dir is never consulted here. -/
def windowsBindingSource (env : EnvVars) (include_paths : List String) : BindingSource :=
  match env.ffmpeg_binding_path with
  | some bp => BindingSource.prebuilt bp
  | none =>
      match include_paths with
      | inc :: _ => BindingSource.generated inc
      | [] => BindingSource.noSource "index out of bounds: the len is 0"

/-- Modelled from the spec: the claimed uniform binding-source priority,
prebuilt path over explicit include dir over discovered include path over
fatal, written from the words of the spec for comparison with the four
per-branch resolutions above. -/
def claimedBindingOrder (env : EnvVars) (discovered : List String) : BindingSource :=
  match env.ffmpeg_binding_path with
  | some bp => BindingSource.prebuilt bp
  | none =>
      match env.ffmpeg_include_dir with
      | some inc => BindingSource.generated inc
      | none =>
          match discovered with
          | inc :: _ => BindingSource.generated inc
          | [] => BindingSource.noSource "no binding source"

/-- Equality of binding-source choices up to the fatal message text. -/
def sameBindingChoice : BindingSource → BindingSource → Bool
  | BindingSource.prebuilt a, BindingSource.prebuilt b => a == b
  | BindingSource.generated a, BindingSource.generated b => a == b
  | BindingSource.noSource _, BindingSource.noSource _ => true
  | _, _ => false

/-- HashSet::insert on the insertion-ordered view of the set. -/
def hashSetInsert (acc : List String) (x : String) : List String :=
  if x ∈ acc then acc else acc ++ [x]

/-- The probing loop of static_linking_with_pkg_config: probe each
library under the name lib-prefixed name, panic naming the library on the
first failure, and accumulate the reported include paths into the
deduplicating set.  The probe oracle stands for pkg_config probing; the
set is modelled in insertion order. -/
def static_linking_with_pkg_config (probe : String → Option (List String)) :
    List String → List String → Except String (List String)
  | [], acc => Except.ok acc
  | libname :: rest, acc =>
      match probe ("lib" ++ libname) with
      | none => Except.error (libname ++ " not found!")
      | some new_paths =>
          static_linking_with_pkg_config probe rest (new_paths.foldl hashSetInsert acc)

/-- Which linking mechanism the non-windows static branch picks. -/
inductive StaticLinkMethod where
  | viaPkgConfig (path : String)
  | viaLibsDir (dir : String)
  | noMethod
deriving DecidableEq

/-- The if-let chain of static_linking on non-windows targets:
ffmpeg_pkg_config_path first, then ffmpeg_libs_dir, else fatal. -/
def staticLinkingMethod (env : EnvVars) : StaticLinkMethod :=
  match env.ffmpeg_pkg_config_path with
  | some p => StaticLinkMethod.viaPkgConfig p
  | none =>
      match env.ffmpeg_libs_dir with
      | some d => StaticLinkMethod.viaLibsDir d
      | none => StaticLinkMethod.noMethod

/-- Linker directives printed for cargo. -/
inductive Directive where
  | linkDylib (name : String)
  | searchNative (dir : String)
  | linkStatic (name : String)

/-- Oracles for the external collaborators: pkg-config probing, the vcpkg
package resolution (none stands for the unwrap panic on its failure),
bindgen generation success and fs::copy success. -/
structure Oracles where
  probe : String → Option (List String)
  vcpkgIncludePaths : Option (List String)
  parseOk : Bool
  copyOk : Bool

/-- The observable outcome of a successful run: directives in emission
order and the one binding file written, with its path and source. -/
structure RunOutput where
  directives : List Directive
  bindingWritten : String × BindingSource

/-- The panic message of Option::unwrap, shared by every unwrap site. -/
def unwrapNoneMsg : String := "called Option::unwrap() on a None value"

/-- Acts on a resolved binding source: copy the prebuilt file, or run
generation and write, or surface the fatal message. -/
def performBindingSource (o : Oracles) (out_path : String) (dirs : List Directive) :
    BindingSource → Except String RunOutput
  | BindingSource.prebuilt bp =>
      if o.copyOk then Except.ok ⟨dirs, (out_path, BindingSource.prebuilt bp)⟩
      else Except.error "Prebuilt binding file failed to be copied."
  | BindingSource.generated inc =>
      if o.parseOk then Except.ok ⟨dirs, (out_path, BindingSource.generated inc)⟩
      else Except.error "Binding generation failed."
  | BindingSource.noSource msg => Except.error msg

/-- docs_rs_linking: unwrap OUT_DIR, then copy the bundled binding. -/
def docs_rs_linking (o : Oracles) (env : EnvVars) : Except String RunOutput :=
  match env.out_dir with
  | none => Except.error unwrapNoneMsg
  | some out_dir =>
      performBindingSource o (out_dir ++ "/binding.rs") [] (BindingSource.prebuilt "src/binding.rs")

/-- dynamic_linking: unwrap the dll path, unwrap OUT_DIR, derive the dll
name and dir, emit the two directives, then resolve the binding source. -/
def dynamic_linking (targetWindows : Bool) (o : Oracles) (env : EnvVars) :
    Except String RunOutput :=
  match env.ffmpeg_dll_path with
  | none => Except.error unwrapNoneMsg
  | some dll_path =>
      match env.out_dir with
      | none => Except.error unwrapNoneMsg
      | some out_dir =>
          match ffmpeg_dll_name targetWindows dll_path with
          | none => Except.error unwrapNoneMsg
          | some dll_name =>
              performBindingSource o (out_dir ++ "/binding.rs")
                [Directive.linkDylib dll_name, Directive.searchNative (ffmpeg_dll_dir dll_path)]
                (dynamicBindingSource env)

/-- static_linking: unwrap OUT_DIR, then either the vcpkg path on windows
or the pkg-config / libs-dir chain elsewhere.  The pkg-config branch
first runs the probing loop (whose environment side effect is modelled
separately by the state-passing variant below). -/
def static_linking (targetWindows : Bool) (o : Oracles) (env : EnvVars) :
    Except String RunOutput :=
  match env.out_dir with
  | none => Except.error unwrapNoneMsg
  | some out_dir =>
      if targetWindows then
        match o.vcpkgIncludePaths with
        | none => Except.error unwrapNoneMsg
        | some incs =>
            performBindingSource o (out_dir ++ "/binding.rs") [] (windowsBindingSource env incs)
      else
        match staticLinkingMethod env with
        | StaticLinkMethod.viaPkgConfig _p =>
            match static_linking_with_pkg_config o.probe LIBS [] with
            | Except.error e => Except.error e
            | Except.ok incs =>
                performBindingSource o (out_dir ++ "/binding.rs") []
                  (staticPkgBindingSource env incs)
        | StaticLinkMethod.viaLibsDir d =>
            performBindingSource o (out_dir ++ "/binding.rs")
              (Directive.searchNative d :: LIBS.map Directive.linkStatic)
              (staticLibsDirBindingSource env)
        | StaticLinkMethod.noMethod => Except.error "No linking method set!"

/-- fn main: read the snapshot, pick the strategy, run it. -/
def runMain (targetWindows : Bool) (o : Oracles) (env : EnvVars) : Except String RunOutput :=
  match selectStrategy env with
  | LinkingStrategy.DocsShortcut => docs_rs_linking o env
  | LinkingStrategy.Dynamic => dynamic_linking targetWindows o env
  | LinkingStrategy.Static => static_linking targetWindows o env

/-- The piece of process-wide environment state touched by the code: the
PKG_CONFIG_PATH variable. -/
structure ProcessEnv where
  pkg_config_path_var : Option String
deriving DecidableEq

/-- The probing loop with the process environment threaded through: the
probe oracle reads the ambient PKG_CONFIG_PATH, and the loop itself never
writes it. -/
def pkgLoopSt (probe : Option String → String → Option (List String)) :
    List String → List String → ProcessEnv → ProcessEnv × Except String (List String)
  | [], acc, st => (st, Except.ok acc)
  | libname :: rest, acc, st =>
      match probe st.pkg_config_path_var ("lib" ++ libname) with
      | none => (st, Except.error (libname ++ " not found!"))
      | some new_paths =>
          pkgLoopSt probe rest (new_paths.foldl hashSetInsert acc) st

/-- static_linking_with_pkg_config with its env::set_var side effect
explicit: the search path is written into the process environment before
the loop and never unset afterwards. -/
def static_linking_with_pkg_config_st (probe : Option String → String → Option (List String))
    (libs : List String) (ffmpeg_pkg_config_path : String) (st : ProcessEnv) :
    ProcessEnv × Except String (List String) :=
  pkgLoopSt probe libs [] { st with pkg_config_path_var := some ffmpeg_pkg_config_path }

/-- Snapshot with only the documentation flag (and junk in every other
field) for exercising strategy priority. -/
def envDocs : EnvVars :=
  ⟨some "1", some "/out", some "/inc", some "/lib/libav.so", some "/pc", some "/ld", some "/b.rs"⟩

/-- Snapshot with a dll path and no documentation flag. -/
def envDyn : EnvVars := ⟨none, some "/out", none, some "/lib/libfoo.so", none, none, none⟩

/-- Snapshot with neither documentation flag nor dll path. -/
def envStat : EnvVars := ⟨none, some "/out", none, none, none, none, none⟩

/-- Snapshot with an explicit include dir and no prebuilt binding path,
where the restricted-platform branch ignores the include dir. -/
def envC2 : EnvVars := ⟨none, some "/out", some "/inc", none, none, none, none⟩

/-- Snapshot reaching the pkg-config branch with no include dir and no
prebuilt binding path. -/
def envC8 : EnvVars := ⟨none, some "/out", none, none, some "/pc", none, none⟩

/-- Snapshot with both a pkg-config path and a libs dir. -/
def env7 : EnvVars := ⟨none, some "/out", none, none, some "/pc", some "/libs", none⟩

/-- Snapshot selecting Dynamic for the name-derivation witness. -/
def env5 : EnvVars := ⟨none, some "/out", none, some "/lib/libfoo.so", none, none, none⟩

/-- Snapshot with no OUT_DIR at all. -/
def envNoOut : EnvVars := ⟨none, none, none, none, none, none, none⟩

/-- Probe oracle on which every library probe fails. -/
def probeAllFail : String → Option (List String) := fun _ => none

/-- Probe oracle on which every library probe succeeds with one path. -/
def probeAllOk : String → Option (List String) := fun _ => some ["/usr/include"]

/-- A fixed oracle bundle for witnesses. -/
def oracle0 : Oracles := ⟨probeAllFail, none, true, true⟩

/-- Helper: a list with the lib prefix has at least three characters. -/
theorem three_le_length_of_lib_pre (l : List Char) (h : libChars.isPrefixOf l = true) :
    3 ≤ l.length := by
  match l with
  | [] => simp [libChars] at h
  | [a] => simp [libChars, List.isPrefixOf] at h
  | [a, b] => simp [libChars, List.isPrefixOf] at h
  | a :: b :: c :: rest => simp

/-- Helper: the fueled trimmer never returns a list still carrying the
lib prefix, whenever the fuel covers the length. -/
theorem trimStartLibAux_no_lib :
    ∀ (fuel : Nat) (l : List Char), l.length ≤ fuel →
      libChars.isPrefixOf (trimStartLibAux fuel l) = false := by
  intro fuel
  induction fuel with
  | zero =>
      intro l hl
      have hnil : l = [] := List.length_eq_zero.mp (Nat.le_zero.mp hl)
      subst hnil
      rfl
  | succ n ih =>
      intro l hl
      cases hp : libChars.isPrefixOf l with
      | true =>
          have h3 : 3 ≤ l.length := three_le_length_of_lib_pre l hp
          rw [trimStartLibAux]
          simp only [hp, if_true]
          apply ih
          simp only [List.length_drop]
          omega
      | false =>
          rw [trimStartLibAux]
          simp [hp]

/-- Helper: the trimmed list never starts with the lib prefix. -/
theorem trimStartLib_no_lib (l : List Char) : libChars.isPrefixOf (trimStartLib l) = false :=
  trimStartLibAux_no_lib l.length l (Nat.le_refl _)

/-- Helper: trimming a list with no lib prefix changes nothing. -/
theorem trimStartLib_id_of_no_lib (l : List Char) (h : libChars.isPrefixOf l = false) :
    trimStartLib l = l := by
  unfold trimStartLib
  cases hl : l.length with
  | zero => rfl
  | succ n =>
      rw [trimStartLibAux]
      simp [h]

/-- C1: strategy selection is total and strictly prioritised over the
snapshot: a set documentation flag always selects DocsShortcut, otherwise
a set dll path selects Dynamic, otherwise Static is selected. -/
theorem strategy_priority (env : EnvVars) :
    (env.docs_rs.isSome = true → selectStrategy env = LinkingStrategy.DocsShortcut) ∧
    (env.docs_rs = none → env.ffmpeg_dll_path.isSome = true →
      selectStrategy env = LinkingStrategy.Dynamic) ∧
    (env.docs_rs = none → env.ffmpeg_dll_path = none →
      selectStrategy env = LinkingStrategy.Static) := by
  obtain ⟨d, od, inc, dll, pc, ld, bp⟩ := env
  cases d <;> cases dll <;> simp [selectStrategy]

/-- C1 witness: the three priority cases at concrete snapshots. -/
theorem strategy_priority_witness :
    selectStrategy envDocs = LinkingStrategy.DocsShortcut ∧
    selectStrategy envDyn = LinkingStrategy.Dynamic ∧
    selectStrategy envStat = LinkingStrategy.Static :=
  ⟨(strategy_priority envDocs).1 rfl,
   (strategy_priority envDyn).2.1 rfl rfl,
   (strategy_priority envStat).2.2 rfl rfl⟩

/-- C3: the installed filter answers Ignore on exactly the five
floating-point classification names and Default on every other name. -/
theorem macro_filter_exact (name : String) :
    (bindgenMacroFilter "FP_NAN" = MacroParsingBehavior.Ignore ∧
     bindgenMacroFilter "FP_INFINITE" = MacroParsingBehavior.Ignore ∧
     bindgenMacroFilter "FP_ZERO" = MacroParsingBehavior.Ignore ∧
     bindgenMacroFilter "FP_SUBNORMAL" = MacroParsingBehavior.Ignore ∧
     bindgenMacroFilter "FP_NORMAL" = MacroParsingBehavior.Ignore) ∧
    (name ∉ fpMacros → bindgenMacroFilter name = MacroParsingBehavior.Default) ∧
    (bindgenMacroFilter name = MacroParsingBehavior.Ignore → name ∈ fpMacros) := by
  refine ⟨by decide, ?_, ?_⟩
  · intro hn
    simp [bindgenMacroFilter, filterCallbackDecision, hn]
  · intro hi
    by_cases hn : name ∈ fpMacros
    · exact hn
    · simp [bindgenMacroFilter, filterCallbackDecision, hn] at hi

/-- C3 witness: a name outside the five gets the Default behavior. -/
theorem macro_filter_witness :
    ("AVERROR_EOF" ∉ fpMacros) ∧ bindgenMacroFilter "AVERROR_EOF" = MacroParsingBehavior.Default :=
  ⟨by decide, (macro_filter_exact "AVERROR_EOF").2.1 (by decide)⟩

/-- Helper: String append concatenates the character data. -/
theorem string_data_append (a b : String) : (a ++ b).data = a.data ++ b.data := rfl

/-- Helper: joining two slash-free-at-the-junction lists with one slash
keeps the no-double-slash property. -/
theorem noDoubleSlash_append (l2 : List Char) (h2 : noDoubleSlash l2 = true)
    (e2 : headIsSlash l2 = false) :
    ∀ l1, noDoubleSlash l1 = true → endsWithSlash l1 = false →
      noDoubleSlash (l1 ++ '/' :: l2) = true := by
  intro l1
  induction l1 with
  | nil =>
      intro _ _
      cases l2 with
      | nil => rfl
      | cons c r =>
          have hc : (c == '/') = false := e2
          simp only [List.nil_append, noDoubleSlash, hc]
          simpa using h2
  | cons a tail ih =>
      intro h1 e1
      cases tail with
      | nil =>
          have ha : (a == '/') = false := e1
          simp only [List.cons_append, List.nil_append, noDoubleSlash, ha]
          have := ih rfl rfl
          simpa using this
      | cons b rest =>
          have e1b : endsWithSlash (b :: rest) = false := e1
          have h1eq : noDoubleSlash (a :: b :: rest) =
              (!(a == '/' && b == '/') && noDoubleSlash (b :: rest)) := rfl
          rw [h1eq, Bool.and_eq_true] at h1
          have hih := ih h1.2 e1b
          show noDoubleSlash (a :: b :: (rest ++ '/' :: l2)) = true
          have hg : noDoubleSlash (a :: b :: (rest ++ '/' :: l2)) =
              (!(a == '/' && b == '/') && noDoubleSlash (b :: (rest ++ '/' :: l2))) := rfl
          rw [hg, Bool.and_eq_true]
          exact ⟨h1.1, by simpa using hih⟩

/-- C6 counterexample: the resolver concatenates with an inserted slash
blindly, so an include dir that itself ends with a separator yields a
double-slashed resolved path, against the claim. -/
theorem resolveHeader_double_slash_cex :
    noDoubleSlash "a/".data = true ∧ noDoubleSlash "b".data = true ∧
    resolveHeader (some "a/") "b" = "a//b" ∧
    noDoubleSlash (resolveHeader (some "a/") "b").data = false := by
  refine ⟨by decide, by decide, rfl, by decide⟩

/-- C6 amended: the resolved header path is exactly the include dir, one
inserted separator, and the header; the single-separator property holds
whenever the include dir does not end with a separator and the header
does not start with one. -/
theorem resolveHeader_exact_join (D h : String)
    (hD : noDoubleSlash D.data = true) (hh : noDoubleSlash h.data = true)
    (eD : endsWithSlash D.data = false) (eh : headIsSlash h.data = false) :
    resolveHeader (some D) h = D ++ "/" ++ h ∧
    noDoubleSlash (resolveHeader (some D) h).data = true := by
  refine ⟨rfl, ?_⟩
  have hdata : (resolveHeader (some D) h).data = D.data ++ '/' :: h.data := by
    show (D ++ "/" ++ h).data = _
    simp [string_data_append, List.append_assoc]
  rw [hdata]
  exact noDoubleSlash_append h.data hh eh D.data hD eD

/-- C6 witness: exact join at a real header under a clean include dir. -/
theorem resolveHeader_join_witness :
    (noDoubleSlash "/opt/include".data = true ∧
     noDoubleSlash "libavcodec/avcodec.h".data = true ∧
     endsWithSlash "/opt/include".data = false ∧
     headIsSlash "libavcodec/avcodec.h".data = false) ∧
    (resolveHeader (some "/opt/include") "libavcodec/avcodec.h" =
      "/opt/include" ++ "/" ++ "libavcodec/avcodec.h" ∧
     noDoubleSlash (resolveHeader (some "/opt/include") "libavcodec/avcodec.h").data = true) :=
  ⟨⟨by decide, by decide, by decide, by decide⟩,
   resolveHeader_exact_join "/opt/include" "libavcodec/avcodec.h"
     (by decide) (by decide) (by decide) (by decide)⟩

/-- C5: for a snapshot selecting Dynamic, the derived linkable name is
the base name of the dll path without extension; on non-windows targets
the lib prefix is stripped away entirely (the result never retains it,
and a stem with no such prefix is unchanged), while on the windows
convention the stem is kept unchanged; the path /lib/libfoo.so yields
the name foo. -/
theorem dynamic_name_strips_lib (env : EnvVars) (p : String)
    (hsel : selectStrategy env = LinkingStrategy.Dynamic)
    (hp : env.ffmpeg_dll_path = some p) :
    ffmpeg_dll_name false "/lib/libfoo.so" = some "foo" ∧
    (∀ n, ffmpeg_dll_name false p = some n → libChars.isPrefixOf n.data = false) ∧
    (∀ f, pathFileName p = some f → ffmpeg_dll_name true p = some (fileStemOfName f)) ∧
    (∀ f, pathFileName p = some f → libChars.isPrefixOf (fileStemOfName f).data = false →
      ffmpeg_dll_name false p = some (fileStemOfName f)) := by
  refine ⟨by decide, ?_, ?_, ?_⟩
  · intro n hn
    cases hf : pathFileName p with
    | none => simp [ffmpeg_dll_name, hf] at hn
    | some f =>
        simp [ffmpeg_dll_name, hf] at hn
        subst hn
        exact trimStartLib_no_lib _
  · intro f hf
    simp [ffmpeg_dll_name, hf]
  · intro f hf hnp
    simp [ffmpeg_dll_name, hf, trimStartLib_id_of_no_lib _ hnp]

/-- C5 witness: the concrete snapshot selecting Dynamic over the path
/lib/libfoo.so derives the name foo. -/
theorem dynamic_name_witness :
    selectStrategy env5 = LinkingStrategy.Dynamic ∧
    env5.ffmpeg_dll_path = some "/lib/libfoo.so" ∧
    ffmpeg_dll_name false "/lib/libfoo.so" = some "foo" :=
  ⟨by decide, rfl, (dynamic_name_strips_lib env5 "/lib/libfoo.so" (by decide) rfl).1⟩

/-- C2 counterexample: on the restricted-platform branch the explicit
include directory is ignored, so with an include dir set, no prebuilt
path, and a discovered path present, the code generates from the
discovered path while the claimed uniform priority demands the explicit
include dir. -/
theorem binding_order_cex :
    envC2.ffmpeg_binding_path = none ∧
    envC2.ffmpeg_include_dir = some "/inc" ∧
    windowsBindingSource envC2 ["/d"] = BindingSource.generated "/d" ∧
    claimedBindingOrder envC2 ["/d"] = BindingSource.generated "/inc" ∧
    sameBindingChoice (windowsBindingSource envC2 ["/d"]) (claimedBindingOrder envC2 ["/d"])
      = false := by
  refine ⟨rfl, rfl, rfl, rfl, by decide⟩

/-- C2 amended: the priority prebuilt path over explicit include dir over
discovered include path over fatal holds in the dynamic branch, the
pkg-config static branch and the libs-dir static branch (the dynamic and
libs-dir branches discover nothing); on the restricted-platform branch
the explicit include dir is never consulted, so that branch follows the
order with the include dir field blanked out. -/
theorem binding_source_priority (env : EnvVars) (incs : List String) :
    sameBindingChoice (dynamicBindingSource env) (claimedBindingOrder env []) = true ∧
    sameBindingChoice (staticPkgBindingSource env incs) (claimedBindingOrder env incs) = true ∧
    sameBindingChoice (staticLibsDirBindingSource env) (claimedBindingOrder env []) = true ∧
    sameBindingChoice (windowsBindingSource env incs)
      (claimedBindingOrder { env with ffmpeg_include_dir := none } incs) = true := by
  obtain ⟨d, od, inc, dll, pc, ld, bp⟩ := env
  cases bp <;> cases inc <;> cases incs <;>
    simp [dynamicBindingSource, staticPkgBindingSource, staticLibsDirBindingSource,
      windowsBindingSource, claimedBindingOrder, sameBindingChoice]

/-- Helper: a successful probing loop run means every library in the
list probed successfully. -/
theorem pkg_loop_ok_all (probe : String → Option (List String)) :
    ∀ (libs acc res : List String),
      static_linking_with_pkg_config probe libs acc = Except.ok res →
      ∀ lib ∈ libs, (probe ("lib" ++ lib)).isSome = true := by
  intro libs
  induction libs with
  | nil =>
      intro acc res _ lib hlib
      exact absurd hlib (List.not_mem_nil _)
  | cons l rest ih =>
      intro acc res hok lib hlib
      cases hpr : probe ("lib" ++ l) with
      | none =>
          rw [static_linking_with_pkg_config, hpr] at hok
          exact absurd hok (by simp)
      | some ps =>
          rw [static_linking_with_pkg_config, hpr] at hok
          rcases List.mem_cons.mp hlib with hl | hl
          · subst hl
            rw [hpr]
            rfl
          · exact ih _ res hok lib hl

/-- Helper: when some library in the list fails to probe, the loop ends
in the panic naming a failing library, whatever the accumulator. -/
theorem pkg_loop_err_first (probe : String → Option (List String)) :
    ∀ libs : List String, (∃ lib ∈ libs, probe ("lib" ++ lib) = none) →
      ∃ lib ∈ libs, probe ("lib" ++ lib) = none ∧
        ∀ acc, static_linking_with_pkg_config probe libs acc =
          Except.error (lib ++ " not found!") := by
  intro libs
  induction libs with
  | nil =>
      intro h
      obtain ⟨lib, hmem, _⟩ := h
      exact absurd hmem (List.not_mem_nil _)
  | cons l rest ih =>
      intro h
      cases hpr : probe ("lib" ++ l) with
      | none =>
          refine ⟨l, List.mem_cons_self l rest, hpr, ?_⟩
          intro acc
          rw [static_linking_with_pkg_config, hpr]
      | some ps =>
          obtain ⟨lib, hmem, hnone⟩ := h
          rcases List.mem_cons.mp hmem with hl | hl
          · subst hl
            rw [hpr] at hnone
            exact absurd hnone (by simp)
          · obtain ⟨lib2, hm2, hn2, hall⟩ := ih ⟨lib, hl, hnone⟩
            refine ⟨lib2, List.mem_cons_of_mem l hm2, hn2, ?_⟩
            intro acc
            rw [static_linking_with_pkg_config, hpr]
            exact hall _

/-- C4: over the whole seven-entry registry, probing is all-or-nothing:
a successful run certifies every library probed successfully, and any
single probe failure makes the whole run fatal with an error naming a
missing library. -/
theorem pkg_probe_all_or_nothing (probe : String → Option (List String)) :
    LIBS.length = 7 ∧
    (∀ acc res, static_linking_with_pkg_config probe LIBS acc = Except.ok res →
      ∀ lib ∈ LIBS, (probe ("lib" ++ lib)).isSome = true) ∧
    ((∃ lib ∈ LIBS, probe ("lib" ++ lib) = none) →
      ∃ lib ∈ LIBS, probe ("lib" ++ lib) = none ∧
        ∀ acc, static_linking_with_pkg_config probe LIBS acc =
          Except.error (lib ++ " not found!")) :=
  ⟨rfl, fun acc res h => pkg_loop_ok_all probe LIBS acc res h, pkg_loop_err_first probe LIBS⟩

/-- C4 witness: under an oracle that fails every probe, the run is fatal
and names a missing library; the hypothesis is discharged at avcodec. -/
theorem pkg_probe_witness :
    (∃ lib ∈ LIBS, probeAllFail ("lib" ++ lib) = none) ∧
    (∃ lib ∈ LIBS, probeAllFail ("lib" ++ lib) = none ∧
      ∀ acc, static_linking_with_pkg_config probeAllFail LIBS acc =
        Except.error (lib ++ " not found!")) :=
  ⟨⟨"avcodec", by decide, rfl⟩,
   (pkg_probe_all_or_nothing probeAllFail).2.2 ⟨"avcodec", by decide, rfl⟩⟩

/-- C7: in the non-windows static branch the pkg-config path is checked
first, so when both it and the libs dir are set only pkg-config is
honored and the libs-dir mechanism is unreachable. -/
theorem pkg_config_shadows_libs_dir (env : EnvVars) (p d : String)
    (hp : env.ffmpeg_pkg_config_path = some p) (hd : env.ffmpeg_libs_dir = some d) :
    staticLinkingMethod env = StaticLinkMethod.viaPkgConfig p ∧
    ∀ d2, staticLinkingMethod env ≠ StaticLinkMethod.viaLibsDir d2 := by
  constructor
  · rw [staticLinkingMethod, hp]
  · intro d2
    rw [staticLinkingMethod, hp]
    simp

/-- C7 witness: the shadowing at a snapshot carrying both settings. -/
theorem pkg_config_shadows_witness :
    (env7.ffmpeg_pkg_config_path = some "/pc" ∧ env7.ffmpeg_libs_dir = some "/libs") ∧
    (staticLinkingMethod env7 = StaticLinkMethod.viaPkgConfig "/pc" ∧
     ∀ d2, staticLinkingMethod env7 ≠ StaticLinkMethod.viaLibsDir d2) :=
  ⟨⟨rfl, rfl⟩, pkg_config_shadows_libs_dir env7 "/pc" "/libs" rfl rfl⟩

/-- Helper: the probing loop itself never writes the process
environment; it only threads the state through. -/
theorem pkgLoopSt_state_fixed (probe : Option String → String → Option (List String)) :
    ∀ (libs acc : List String) (st : ProcessEnv), (pkgLoopSt probe libs acc st).1 = st := by
  intro libs
  induction libs with
  | nil => intro acc st; rfl
  | cons l rest ih =>
      intro acc st
      cases hpr : probe st.pkg_config_path_var ("lib" ++ l) with
      | none => rw [pkgLoopSt, hpr]
      | some ps =>
          rw [pkgLoopSt, hpr]
          exact ih _ _

/-- C9 counterexample: calling the pkg-config routine from a process
environment with no search path set leaves the override in place after
the call returns, so the caller does observe the mutation outside the
call. -/
theorem env_mutation_persists_cex :
    (static_linking_with_pkg_config_st (fun _ _ => some []) LIBS "/pkg" ⟨none⟩).1 =
      (⟨some "/pkg"⟩ : ProcessEnv) ∧
    (static_linking_with_pkg_config_st (fun _ _ => some []) LIBS "/pkg" ⟨none⟩).1 ≠
      (⟨none⟩ : ProcessEnv) := by
  refine ⟨by decide, by decide⟩

/-- C9 amended: the search path override is written into the process
environment before the probing loop and is never restored: after the
call returns, whatever the initial state and probe behavior, the
environment still holds the override. -/
theorem env_mutation_persists (probe : Option String → String → Option (List String))
    (libs : List String) (p : String) (st : ProcessEnv) :
    (static_linking_with_pkg_config_st probe libs p st).1 =
      ⟨some p⟩ := by
  unfold static_linking_with_pkg_config_st
  exact pkgLoopSt_state_fixed probe libs [] _

/-- C10: when the snapshot has no output directory, every strategy runs
into the unwrap panic and the run produces no binding file, whatever the
platform and oracles. -/
theorem missing_out_dir_panics (tw : Bool) (o : Oracles) (env : EnvVars)
    (h : env.out_dir = none) :
    runMain tw o env = Except.error unwrapNoneMsg := by
  unfold runMain selectStrategy
  cases hd : env.docs_rs with
  | some v => simp [docs_rs_linking, h]
  | none =>
      cases hdll : env.ffmpeg_dll_path with
      | some p => simp [hd, hdll, dynamic_linking, h]
      | none => simp [hd, hdll, static_linking, h]

/-- C10 witness: the all-absent snapshot panics on the missing OUT_DIR. -/
theorem missing_out_dir_witness :
    envNoOut.out_dir = none ∧ runMain false oracle0 envNoOut = Except.error unwrapNoneMsg :=
  ⟨rfl, missing_out_dir_panics false oracle0 envNoOut rfl⟩

/-- C8: the include path picked for generation is element 0 of the
enumeration of the deduplicated path set, so two enumerations of the
same set (a permutation pair) can steer generation to different include
paths; nothing ties the enumeration order down. -/
theorem include_path_pick_order_sensitive :
    List.Perm ["/a", "/b"] ["/b", "/a"] ∧
    staticPkgBindingSource envC8 ["/a", "/b"] = BindingSource.generated "/a" ∧
    staticPkgBindingSource envC8 ["/b", "/a"] = BindingSource.generated "/b" ∧
    staticPkgBindingSource envC8 ["/a", "/b"] ≠ staticPkgBindingSource envC8 ["/b", "/a"] :=
  ⟨List.Perm.swap "/b" "/a" [], rfl, rfl, by decide⟩
